import Mathlib

/-!
Verification of the moluabi-mcp-client tool-invocation relay.

This file embeds, as executable Lean definitions, the parts of the source
relevant to the usage ledger, the outcome classifier, the remote tool
gateway and the request orchestrator:

* `src/server/services/atxp-client.ts` — `AtxpService.createAtxpFlow`
  (the five-step outcome classifier);
* `src/server/services/mcp-client.ts`  — `MoluAbiMcpClient.callTool`
  (HTTP gateway, API-key injection);
* `src/server/routes.ts` and the SDK-only revision of the same routes —
  the `POST /api/mcp/tools/:toolName` handler and `GET /api/usage`;
* the in-memory storage layer — `MemStorage` and its operations.

JavaScript values flowing through these functions are modeled by the
`Json` inductive; `null`/`undefined` inputs are modeled as `Option.none`.
Nondeterministic runtime inputs (awaited HTTP results, clock reads,
generated UUIDs, the environment) are explicit parameters.
-/

namespace MoluAbi

/-- JSON-compatible JavaScript value. Objects keep their fields as an
ordered association list; `lookup` takes the first binding, and object
literals built by the embedded code never repeat a key. -/
inductive Json where
  | null
  | bool (b : Bool)
  | num (q : ℚ)
  | str (s : String)
  | arr (items : List Json)
  | obj (fields : List (String × Json))

/-- First binding of a key in an object's field list. -/
def Json.lookup : List (String × Json) → String → Option Json
  | [], _ => none
  | (k, v) :: rest, key => if k = key then some v else Json.lookup rest key

/-- JavaScript truthiness of a value (`NaN` is not modeled; the embedded
code never manufactures one). -/
def Json.truthy : Json → Bool
  | .null => false
  | .bool b => b
  | .num q => decide (q ≠ 0)
  | .str s => decide (s ≠ "")
  | .arr _ => true
  | .obj _ => true

/-- `typeof v === 'object'` (true for objects, arrays and `null`). -/
def Json.isObjectType : Json → Bool
  | .null => true
  | .obj _ => true
  | .arr _ => true
  | _ => false

/-- Property access `v?.key` with `undefined` propagation: `undefined`
(`none`) on `null`/`undefined` and on every non-object base. -/
def jsGet : Option Json → String → Option Json
  | some (.obj fields), key => Json.lookup fields key
  | _, _ => none

/-- Truthiness of a possibly-`undefined` value. -/
def jsTruthy : Option Json → Bool
  | some v => v.truthy
  | none => false

/-- `v === true`. -/
def jsIsTrue : Option Json → Bool
  | some (.bool true) => true
  | _ => false

/-- `v === false`. -/
def jsIsFalse : Option Json → Bool
  | some (.bool false) => true
  | _ => false

/-- `v[0]`: array head, first character of a string, or the `"0"` property
of an object; `undefined` otherwise. -/
def Json.item0 : Json → Option Json
  | .arr (x :: _) => some x
  | .arr [] => none
  | .str s =>
    match s.data with
    | [] => none
    | c :: _ => some (.str (String.mk [c]))
  | .obj fields => Json.lookup fields "0"
  | _ => none

/-- `v.length > 0` under JS semantics: arrays and strings have a numeric
`length`; on other values `length` is `undefined` and the comparison is
false. -/
def jsLengthPos : Option Json → Bool
  | some (.arr items) => decide (items.length > 0)
  | some (.str s) => decide (s.length > 0)
  | _ => false

/-- `String.prototype.includes`. -/
def strContains (s pat : String) : Bool :=
  decide (pat.data <:+: s.data)

/-- `String.prototype.toLowerCase` (the embedded code only ever lowers
ASCII text). -/
def jsToLowerCase (s : String) : String :=
  String.mk (s.data.map Char.toLower)

/-- Stand-in for the JavaScript number-to-string rendering used by
`JSON.stringify`; exact float formatting is a runtime-library concern and
none of the verified properties depend on it. -/
def ratNumString (q : ℚ) : String :=
  if q.den = 1 then toString q.num else toString q.num ++ "/" ++ toString q.den

mutual

/-- `JSON.stringify` (string escaping left as-is; the classifier only
ever treats the result as opaque display text). -/
def Json.stringify : Json → String
  | .null => "null"
  | .bool b => if b then "true" else "false"
  | .num q => ratNumString q
  | .str s => "\"" ++ s ++ "\""
  | .arr items => "[" ++ stringifyItems items ++ "]"
  | .obj fields => "\x7b" ++ stringifyMembers fields ++ "\x7d"

def stringifyItems : List Json → String
  | [] => ""
  | [j] => Json.stringify j
  | j :: rest => Json.stringify j ++ "," ++ stringifyItems rest

def stringifyMembers : List (String × Json) → String
  | [] => ""
  | [(k, v)] => "\"" ++ k ++ "\":" ++ Json.stringify v
  | (k, v) :: rest => "\"" ++ k ++ "\":" ++ Json.stringify v ++ "," ++ stringifyMembers rest

end

/-! ## Outcome classifier (`AtxpService.createAtxpFlow`) -/

/-- Step status values used by the classifier's synthetic flow trace. -/
inductive StepStatus where
  | success
  | warning
  | error
  | inProgress
deriving DecidableEq

/-- One synthetic flow step (`AtxpFlowStep`). -/
structure AtxpFlowStep where
  id : String
  label : String
  status : StepStatus
  timestamp : String
  details : String
  cost : ℚ

/-- The classifier's result (`AtxpFlowData`). -/
structure AtxpFlowData where
  steps : List AtxpFlowStep
  totalSteps : ℕ
  totalCost : ℚ
  operation : String

/-- Default used only to make positional access `steps.getD i` total in
theorem statements. -/
def noStep : AtxpFlowStep :=
  { id := "", label := "", status := .inProgress, timestamp := "", details := "", cost := 0 }

/-- `hasResponse`: `mcpResponse && typeof mcpResponse === 'object'`. -/
def hasResponseOf (r : Option Json) : Bool :=
  jsTruthy r &&
    (match r with
     | some j => j.isObjectType
     | none => false)

/-- The `content[0].text` extraction attempt: the source tests
`mcpResponse.content && mcpResponse.content[0] && mcpResponse.content[0].text`
for truthiness and then uses the text. A truthy non-string `text` would make
the source crash later at `toLowerCase`, so only string values are usable;
the model agrees with the source on every input on which the source returns
normally. -/
def contentTextOf (r : Option Json) : Option String :=
  match jsGet r "content" with
  | none => none
  | some c =>
    if c.truthy then
      match c.item0 with
      | none => none
      | some first =>
        if first.truthy then
          match jsGet (some first) "text" with
          | some (.str s) => if s ≠ "" then some s else none
          | _ => none
        else none
    else none

/-- A truthy string field value (see `contentTextOf` on non-string
truthy values). -/
def truthyStrOf (v : Option Json) : Option String :=
  match v with
  | some (.str s) => if s ≠ "" then some s else none
  | _ => none

/-- `responseText` extraction: `content[0].text`, else `message`, else
`error`, else `JSON.stringify(mcpResponse)`; empty when there is no
object response. -/
def deriveResponseText (r : Option Json) : String :=
  if hasResponseOf r then
    match contentTextOf r with
    | some s => s
    | none =>
      match truthyStrOf (jsGet r "message") with
      | some s => s
      | none =>
        match truthyStrOf (jsGet r "error") with
        | some s => s
        | none =>
          match r with
          | some j => j.stringify
          | none => ""
  else ""

/-- The fixed failure substrings scanned for by
`responseContainsActualError` (each arm of the source's `||` chain). -/
def failureSubstrings : List String :=
  ["error:", "failed:", "payment failed", "[payment_failed]",
   "unexpected status code", "401", "403", "500", "502", "503", "504",
   "insufficient funds", "payment declined", "authentication failed",
   "unauthorized", "payment server", "/charge endpoint"]

/-- `responseContainsActualError`: the text is truthy and its lowercased
form contains one of the failure substrings. -/
def responseContainsActualError (t : String) : Bool :=
  decide (t ≠ "") && failureSubstrings.any (fun pat => strContains (jsToLowerCase t) pat)

/-- `hasSuccessField`: `success === true`, or `agents.success === true`,
or a truthy `content` with positive length. -/
def hasSuccessFieldOf (r : Option Json) : Bool :=
  jsTruthy r &&
    (jsIsTrue (jsGet r "success")
      || (jsTruthy (jsGet r "agents") && jsIsTrue (jsGet (jsGet r "agents") "success"))
      || (jsTruthy (jsGet r "content") && jsLengthPos (jsGet r "content")))

/-- `mcpSuccess`: a response object is present and either an explicit
success signal is set, or no failure substring occurs and `success` is
not exactly `false`. -/
def mcpSuccessOf (r : Option Json) : Bool :=
  hasResponseOf r &&
    (hasSuccessFieldOf r
      || (!(responseContainsActualError (deriveResponseText r))
          && !(jsIsFalse (jsGet r "success"))))

/-- `hasPaymentFailedPrefix` in the source: the derived text is truthy and
contains the exact (case-sensitive) marker `[PAYMENT_FAILED]`. -/
def hasPaymentFailedMarker (t : String) : Bool :=
  decide (t ≠ "") && strContains t "[PAYMENT_FAILED]"

/-- Step-4 (`Payment Confirmation`) status: a truthy `atxpError` field wins,
then the `[PAYMENT_FAILED]` marker (warning), then operation failure or any
failure substring (error), else success. -/
def paymentStatusOf (r : Option Json) : StepStatus :=
  if jsTruthy (jsGet r "atxpError") then .error
  else if hasPaymentFailedMarker (deriveResponseText r) then .warning
  else if !(mcpSuccessOf r) || responseContainsActualError (deriveResponseText r) then .error
  else .success

/-- Step-4 details text, branch for branch with `paymentStatusOf`. The
`atxpError` branch displays the field's value (always a string in the
source's own producers). -/
def paymentDetailsOf (r : Option Json) : String :=
  if jsTruthy (jsGet r "atxpError") then
    match jsGet r "atxpError" with
    | some (.str s) => s
    | some v => v.stringify
    | none => ""
  else if hasPaymentFailedMarker (deriveResponseText r) then
    "Payment validation failed - running in test mode. Operation completed successfully but payment could not be processed."
  else if !(mcpSuccessOf r) || responseContainsActualError (deriveResponseText r) then
    if responseContainsActualError (deriveResponseText r) then
      "Payment processing failed: " ++ deriveResponseText r
    else
      "Payment not processed due to operation failure"
  else if deriveResponseText r ≠ "" then
    "ATXP payment processed successfully. Response: \"" ++ deriveResponseText r ++ "\""
  else
    "ATXP payment processed successfully"

/-- `AtxpService.createAtxpFlow(operation, cost, mcpResponse)`: the five
synthetic steps. `clock n` models the `n`-th `new Date().toISOString()`
read (steps 1–2 share the first read, as in the source). The unused
`mcpErrors` parameter of the source is omitted. -/
def createAtxpFlow (operation : String) (cost : ℚ) (mcpResponse : Option Json)
    (clock : ℕ → String) : AtxpFlowData :=
  let now := clock 0
  let authStep : AtxpFlowStep :=
    { id := "auth-start", label := "ATXP Authentication", status := .success,
      timestamp := now, details := "Authenticating with API key for " ++ operation, cost := 0 }
  let preAuthStep : AtxpFlowStep :=
    { id := "payment-preauth", label := "Payment Pre-Authorization", status := .success,
      timestamp := now, details := "MCP server validates payment capacity via ATXP SDK", cost := 0 }
  let responseText := deriveResponseText mcpResponse
  let mcpSuccess := mcpSuccessOf mcpResponse
  let executionStep : AtxpFlowStep :=
    { id := "tool-execution-payment", label := "Tool Execution + Payment",
      status := if mcpSuccess then .success else .error,
      timestamp := clock 1,
      details :=
        if mcpSuccess then
          "Executing " ++ operation ++ " with integrated payment processing via MCP server"
        else
          operation ++ " execution failed: " ++
            (if responseText ≠ "" then responseText else "No response from MCP server"),
      cost := cost }
  let paymentStatus := paymentStatusOf mcpResponse
  let paymentStep : AtxpFlowStep :=
    { id := "payment-confirmation", label := "Payment Confirmation",
      status := paymentStatus, timestamp := clock 2,
      details := paymentDetailsOf mcpResponse,
      cost := if paymentStatus = .success then cost else 0 }
  let completionStep : AtxpFlowStep :=
    { id := "operation-complete", label := "Operation Complete",
      status := if mcpSuccess then .success else .error,
      timestamp := clock 3,
      details :=
        if mcpSuccess then
          operation ++ " executed successfully" ++
            (if paymentStatus = .error then " (payment failed)" else "")
        else
          operation ++ " execution failed",
      cost := 0 }
  { steps := [authStep, preAuthStep, executionStep, paymentStep, completionStep],
    totalSteps := 5, totalCost := cost, operation := operation }

/-! ## Remote tool gateway (`MoluAbiMcpClient.callTool`) -/

/-- A settled `fetch` response: HTTP status and raw body text. -/
structure HttpResp where
  status : ℕ
  body : String

/-- `response.ok`: status in the 2xx range. -/
def HttpResp.isOk (r : HttpResp) : Bool :=
  decide (200 ≤ r.status) && decide (r.status < 300)

/-- A tool invocation request (`McpToolCall`). -/
structure McpToolCall where
  name : String
  arguments : List (String × Json)

/-- Object spread `{...base, ...extra}` under JS semantics: a later field
overrides an earlier one with the same key. Shadowed `base` entries are
dropped so that first-binding lookup sees the overriding value. -/
def spreadFields (base extra : List (String × Json)) : List (String × Json) :=
  base.filter (fun p => !(extra.any (fun q => q.1 == p.1))) ++ extra

/-- `authenticatedArguments = { apiKey, ...toolCall.arguments }`: the
environment credential is written first, then the caller's argument map is
spread over it. -/
def authenticatedArguments (envApiKey : String) (args : List (String × Json)) :
    List (String × Json) :=
  spreadFields [("apiKey", Json.str envApiKey)] args

/-- The outbound request body built by `callTool` in API-key mode:
`{ name: toolCall.name, arguments: authenticatedArguments }`. -/
def callToolRequestBody (toolCall : McpToolCall) (envApiKey : String) : Json :=
  .obj [("name", .str toolCall.name),
        ("arguments", .obj (authenticatedArguments envApiKey toolCall.arguments))]

set_option linter.unusedVariables false in
/-- `MoluAbiMcpClient.callTool` (the HTTP revision under
`src/server/services/mcp-client.ts`). Awaited runtime outcomes are
parameters: `atxpResult` is the ATXP-SDK branch result, `fetchResult` the
settled `fetch` of the API-key branch, and `parseJson` the runtime JSON
parser applied by `response.json()` (`none` = malformed body, whose
`SyntaxError` propagates; the `catch` block only logs and rethrows). -/
def callTool (connected : Bool) (envApiKey : Option String) (paymentMethod : String)
    (toolCall : McpToolCall) (atxpResult : Except String Json)
    (fetchResult : Except String HttpResp) (parseJson : String → Option Json) :
    Except String Json :=
  if !connected then .error "MCP server not connected"
  else
    match envApiKey with
    | none => .error "MOLUABI_MCP_API_KEY not found in environment variables"
    | some _ =>
      if paymentMethod = "atxp" then atxpResult
      else
        match fetchResult with
        | .error e => .error e
        | .ok resp =>
          if !resp.isOk then
            .error ("MCP server responded with status " ++ toString resp.status ++ ": " ++ resp.body)
          else
            match parseJson resp.body with
            | none => .error "Unexpected end of JSON input"
            | some j => .ok j

/-! ## Request orchestrator (`POST /api/mcp/tools/:toolName`)

Two revisions of the handler exist in the repository: the one in
`src/server/routes.ts` (payment validation, inline flow-step log, no
`createAtxpFlow` call) and the SDK-only revision (no payment validation,
`createAtxpFlow` invoked on every path). Each is embedded as the sequence
of its observable actions: classifier invocations, ledger writes, and the
HTTP response. Local display-only flow-step entries and the
`processPayment` side call (whose failure is swallowed) are not events. -/

/-- The usage row handed to `storage.recordToolUsage` by a handler. The
source passes `cost` as `actualCost.toString()`; the numeric value is kept
(number-to-string rendering is a runtime-library concern). -/
structure UsageInsertReq where
  userId : String
  toolName : String
  agentId : Option Json
  cost : ℚ
  executionTime : ℕ
  status : String
  errorMessage : Option String
  request : Json
  response : Option Json

/-- Observable actions of a tool-invocation handler, in program order. -/
inductive HandlerEvent where
  | classify (response : Option Json)
  | ledgerWrite (rec : UsageInsertReq)
  | respond (httpStatus : ℕ)

/-- Cost extraction in the handler: `'cost' in mcpResponse &&
typeof mcpResponse.cost === 'number'`, guarded by the object check;
otherwise the initial `0` stands (`// No fallback - must come from MCP
response`). -/
def extractNumericCost (j : Json) : ℚ :=
  if hasResponseOf (some j) then
    match jsGet (some j) "cost" with
    | some (.num q) => q
    | _ => 0
  else 0

/-- The `POST /api/mcp/tools/:toolName` handler of `src/server/routes.ts`.
`paymentValid` is the awaited `atxpService.validatePayment` result, `gw`
the awaited `mcpClient.callTool` outcome (`Except.error` = thrown
transport failure), `execMs` the measured wall time. -/
def toolHandler (toolName userId : String) (agentId : Option Json) (body : Json)
    (paymentValid : Bool) (gw : Except String Json) (execMs : ℕ) : List HandlerEvent :=
  if !paymentValid then [.respond 402]
  else
    match gw with
    | .ok resp =>
      [.ledgerWrite
        { userId := userId, toolName := toolName, agentId := agentId,
          cost := extractNumericCost resp, executionTime := execMs,
          status := "success", errorMessage := none,
          request := body, response := some resp },
       .respond 200]
    | .error e =>
      [.ledgerWrite
        { userId := userId, toolName := toolName, agentId := agentId,
          cost := 0, executionTime := execMs,
          status := "error", errorMessage := some e,
          request := body, response := none },
       .respond 500]

/-- The SDK-only revision of the same handler: no payment validation, and
`createAtxpFlow` is invoked on every path — with `mcpResponse = null`
after a transport failure (the produced trace is then discarded, since the
error reply carries only `{ error }`). -/
def toolHandlerSdk (toolName userId : String) (agentId : Option Json) (body : Json)
    (gw : Except String Json) (execMs : ℕ) : List HandlerEvent :=
  match gw with
  | .ok resp =>
    [.classify (some resp),
     .ledgerWrite
       { userId := userId, toolName := toolName, agentId := agentId,
         cost := extractNumericCost resp, executionTime := execMs,
         status := "success", errorMessage := none,
         request := body, response := some resp },
     .respond 200]
  | .error e =>
    [.classify none,
     .ledgerWrite
       { userId := userId, toolName := toolName, agentId := agentId,
         cost := 0, executionTime := execMs,
         status := "error", errorMessage := some e,
         request := body, response := none },
     .respond 500]

/-- Number of ledger writes performed by a handler run. -/
def ledgerWriteCount (events : List HandlerEvent) : ℕ :=
  (events.filter (fun e => match e with | .ledgerWrite _ => true | _ => false)).length

/-- Costs of the rows written by a handler run, in order. -/
def ledgerWriteCosts (events : List HandlerEvent) : List ℚ :=
  events.foldr (fun e acc => match e with | .ledgerWrite r => r.cost :: acc | _ => acc) []

/-- Number of classifier invocations performed by a handler run. -/
def classifyCount (events : List HandlerEvent) : ℕ :=
  (events.filter (fun e => match e with | .classify _ => true | _ => false)).length

/-! ## Storage layer (`MemStorage` implementing `IStorage`) -/

/-- A stored user row. -/
structure User where
  id : String
  username : String
  password : String
  atxpConnectionString : Option String
  createdAt : Int

/-- A stored agent row. -/
structure Agent where
  id : ℕ
  name : String
  description : Option String
  instructions : String
  type : String
  isPublic : Bool
  isShareable : Bool
  ownerId : String
  metadata : Json
  createdAt : Int
  updatedAt : Int

/-- A stored agent-access grant. -/
structure AgentAccessRow where
  id : ℕ
  agentId : ℕ
  userId : String
  grantedAt : Int

/-- A stored usage row (`McpToolUsage`). `cost` is the decimal string the
orchestrator passed in; `createdAt` is an epoch timestamp. -/
structure McpToolUsage where
  id : ℕ
  userId : String
  toolName : String
  agentId : Option Int
  cost : String
  tokensUsed : Option Int
  executionTime : Option Int
  status : String
  errorMessage : Option String
  request : Json
  response : Option Json
  createdAt : Int

/-- `InsertUser`. -/
structure InsertUser where
  username : String
  password : String
  atxpConnectionString : Option String

/-- `InsertAgent` (optional fields defaulted by `createAgent`). -/
structure InsertAgent where
  name : String
  description : Option String
  instructions : String
  type : String
  isPublic : Option Bool
  isShareable : Option Bool
  ownerId : String
  metadata : Option Json

/-- `Partial<InsertAgent>` as taken by `updateAgent`: an absent key leaves
the stored field unchanged. -/
structure AgentUpdates where
  name : Option String := none
  description : Option (Option String) := none
  instructions : Option String := none
  type : Option String := none
  isPublic : Option Bool := none
  isShareable : Option Bool := none
  ownerId : Option String := none
  metadata : Option Json := none

/-- `InsertMcpToolUsage`. -/
structure InsertMcpToolUsage where
  userId : String
  toolName : String
  agentId : Option Int
  cost : String
  tokensUsed : Option Int
  executionTime : Option Int
  status : String
  errorMessage : Option String
  request : Json
  response : Option Json

/-- `x || null` on an optional integer: JS also nulls a present `0`. -/
def intOrNull (x : Option Int) : Option Int :=
  match x with
  | some v => if v = 0 then none else some v
  | none => none

/-- `x || null` on an optional string: JS also nulls a present `""`. -/
def strOrNull (x : Option String) : Option String :=
  match x with
  | some v => if v = "" then none else some v
  | none => none

/-- `x || null` on an optional JSON value. -/
def jsonOrNull (x : Option Json) : Option Json :=
  match x with
  | some v => if v.truthy then some v else none
  | none => none

/-- `Map.get`. -/
def mapGet {κ α : Type} [BEq κ] (m : List (κ × α)) (k : κ) : Option α :=
  (m.find? (fun p => p.1 == k)).map Prod.snd

/-- `Map.set`: replace an existing binding in place, else append. -/
def mapSet {κ α : Type} [BEq κ] (m : List (κ × α)) (k : κ) (v : α) : List (κ × α) :=
  if m.any (fun p => p.1 == k) then
    m.map (fun p => if p.1 == k then (k, v) else p)
  else
    m ++ [(k, v)]

/-- `Map.delete`. -/
def mapDelete {κ α : Type} [BEq κ] (m : List (κ × α)) (k : κ) : List (κ × α) :=
  m.filter (fun p => !(p.1 == k))

/-- The `MemStorage` private state. -/
structure MemState where
  users : List (String × User)
  agents : List (ℕ × Agent)
  agentAccess : List (String × List AgentAccessRow)
  toolUsage : List McpToolUsage
  agentIdCounter : ℕ
  usageIdCounter : ℕ

/-- `MemStorage.recordToolUsage`: fill defaults, assign the next synthetic
id, stamp `createdAt`, and append. -/
def recordToolUsage (s : MemState) (usage : InsertMcpToolUsage) (now : Int) : MemState :=
  let record : McpToolUsage :=
    { id := s.usageIdCounter,
      userId := usage.userId, toolName := usage.toolName,
      agentId := intOrNull usage.agentId,
      cost := usage.cost,
      tokensUsed := intOrNull usage.tokensUsed,
      executionTime := intOrNull usage.executionTime,
      status := usage.status,
      errorMessage := strOrNull usage.errorMessage,
      request := usage.request,
      response := jsonOrNull usage.response,
      createdAt := now }
  { s with usageIdCounter := s.usageIdCounter + 1, toolUsage := s.toolUsage ++ [record] }

/-- The filter predicate of `MemStorage.getUserUsageReport`: keep a row iff
its `userId` matches and `createdAt` is not strictly outside an optionally
supplied bound (so both bounds are inclusive). -/
def usageKeep (userId : String) (startDate endDate : Option Int) (u : McpToolUsage) : Bool :=
  if u.userId ≠ userId then false
  else if (match startDate with | some sd => decide (u.createdAt < sd) | none => false) then false
  else if (match endDate with | some ed => decide (ed < u.createdAt) | none => false) then false
  else true

/-- `MemStorage.getUserUsageReport`. -/
def getUserUsageReport (s : MemState) (userId : String) (startDate endDate : Option Int) :
    List McpToolUsage :=
  s.toolUsage.filter (usageKeep userId startDate endDate)

/-- `MemStorage.createUser`. -/
def createUser (s : MemState) (u : InsertUser) (uuid : String) (now : Int) : MemState :=
  let user : User :=
    { id := uuid, username := u.username, password := u.password,
      atxpConnectionString := strOrNull u.atxpConnectionString, createdAt := now }
  { s with users := mapSet s.users uuid user }

/-- `MemStorage.createAgent`. -/
def createAgent (s : MemState) (a : InsertAgent) (now : Int) : MemState :=
  let id := s.agentIdCounter
  let newAgent : Agent :=
    { id := id, name := a.name, description := a.description,
      instructions := a.instructions, type := a.type,
      isPublic := a.isPublic.getD false, isShareable := a.isShareable.getD false,
      ownerId := a.ownerId, metadata := a.metadata.getD (.obj []),
      createdAt := now, updatedAt := now }
  { s with agentIdCounter := s.agentIdCounter + 1, agents := mapSet s.agents id newAgent }

/-- `MemStorage.updateAgent`: owner-gated field merge with a fresh
`updatedAt`. -/
def updateAgent (s : MemState) (id : ℕ) (userId : String) (updates : AgentUpdates)
    (now : Int) : MemState :=
  match mapGet s.agents id with
  | none => s
  | some agent =>
    if agent.ownerId ≠ userId then s
    else
      let updated : Agent :=
        { agent with
          name := updates.name.getD agent.name,
          description := updates.description.getD agent.description,
          instructions := updates.instructions.getD agent.instructions,
          type := updates.type.getD agent.type,
          isPublic := updates.isPublic.getD agent.isPublic,
          isShareable := updates.isShareable.getD agent.isShareable,
          ownerId := updates.ownerId.getD agent.ownerId,
          metadata := updates.metadata.getD agent.metadata,
          updatedAt := now }
      { s with agents := mapSet s.agents id updated }

/-- `MemStorage.deleteAgent`: owner-gated removal plus cleanup of access
grants referring to the agent. -/
def deleteAgent (s : MemState) (id : ℕ) (userId : String) : MemState :=
  match mapGet s.agents id with
  | none => s
  | some agent =>
    if agent.ownerId ≠ userId then s
    else
      { s with
        agents := mapDelete s.agents id,
        agentAccess := s.agentAccess.map
          (fun p => (p.1, p.2.filter (fun acc => acc.agentId ≠ id))) }

/-- `MemStorage.addUserToAgent`: owner-gated, idempotent grant append. -/
def addUserToAgent (s : MemState) (agentId : ℕ) (userId ownerId : String)
    (now : Int) : MemState :=
  match mapGet s.agents agentId with
  | none => s
  | some agent =>
    if agent.ownerId ≠ ownerId then s
    else
      let userAccess := (mapGet s.agentAccess userId).getD []
      if userAccess.any (fun acc => acc.agentId == agentId) then s
      else
        let grant : AgentAccessRow :=
          { id := userAccess.length + 1, agentId := agentId, userId := userId,
            grantedAt := now }
        { s with agentAccess := mapSet s.agentAccess userId (userAccess ++ [grant]) }

/-- `MemStorage.removeUserFromAgent`: owner-gated grant removal; no state
change when there was nothing to remove. -/
def removeUserFromAgent (s : MemState) (agentId : ℕ) (userId ownerId : String) : MemState :=
  match mapGet s.agents agentId with
  | none => s
  | some agent =>
    if agent.ownerId ≠ ownerId then s
    else
      let userAccess := (mapGet s.agentAccess userId).getD []
      let filteredAccess := userAccess.filter (fun acc => acc.agentId ≠ agentId)
      if filteredAccess.length = userAccess.length then s
      else { s with agentAccess := mapSet s.agentAccess userId filteredAccess }

/-- The full `IStorage` operation surface. Read-only operations
(`getUser`, `getUserByUsername`, `getAgent`, `getUserAgents`,
`getUserAgentAccess`, `getUserUsageReport`) are listed so that a quantifier
over `StorageOp` covers every interface member; they leave the state
untouched. Nondeterministic runtime inputs (UUIDs, clock reads) are
constructor arguments. -/
inductive StorageOp where
  | getUser (id : String)
  | getUserByUsername (username : String)
  | createUser (u : InsertUser) (uuid : String) (now : Int)
  | createAgent (a : InsertAgent) (now : Int)
  | getAgent (id : ℕ) (userId : String)
  | getUserAgents (userId : String)
  | updateAgent (id : ℕ) (userId : String) (updates : AgentUpdates) (now : Int)
  | deleteAgent (id : ℕ) (userId : String)
  | addUserToAgent (agentId : ℕ) (userId ownerId : String) (now : Int)
  | removeUserFromAgent (agentId : ℕ) (userId ownerId : String)
  | getUserAgentAccess (userId : String)
  | recordToolUsage (usage : InsertMcpToolUsage) (now : Int)
  | getUserUsageReport (userId : String) (startDate endDate : Option Int)

/-- State transition of one storage operation. -/
def applyOp (op : StorageOp) (s : MemState) : MemState :=
  match op with
  | .getUser _ => s
  | .getUserByUsername _ => s
  | .createUser u uuid now => createUser s u uuid now
  | .createAgent a now => createAgent s a now
  | .getAgent _ _ => s
  | .getUserAgents _ => s
  | .updateAgent id userId updates now => updateAgent s id userId updates now
  | .deleteAgent id userId => deleteAgent s id userId
  | .addUserToAgent agentId userId ownerId now => addUserToAgent s agentId userId ownerId now
  | .removeUserFromAgent agentId userId ownerId => removeUserFromAgent s agentId userId ownerId
  | .getUserAgentAccess _ => s
  | .recordToolUsage usage now => recordToolUsage s usage now
  | .getUserUsageReport _ _ _ => s

/-- A sequence of storage operations, applied in order. -/
def applyOps (ops : List StorageOp) (s : MemState) : MemState :=
  ops.foldl (fun st op => applyOp op st) s

/-! ## Usage summary endpoint (`GET /api/usage`) -/

/-- The summary object shaped by the usage endpoint. -/
structure UsageSummary where
  totalCost : ℚ
  totalActions : ℕ
  successfulActions : ℕ
  failedActions : ℕ
  usage : List McpToolUsage

/-- The `GET /api/usage` summary over the report returned by
`getUserUsageReport`. `parseFloat` is the runtime decimal parser applied
to each row's `cost` string. -/
def usageSummaryOf (parseFloat : String → ℚ) (usage : List McpToolUsage) : UsageSummary :=
  { totalCost := usage.foldl (fun sum record => sum + parseFloat record.cost) 0,
    totalActions := usage.length,
    successfulActions := (usage.filter (fun record => record.status == "success")).length,
    failedActions := (usage.filter (fun record => record.status == "error")).length,
    usage := usage }

/-! ## Concrete gateway responses used in the theorems -/

/-- The spec's own example response:
`{content:[{text:"Agent created. [PAYMENT_FAILED] insufficient balance"}]}`. -/
def specMarkerExample : Json :=
  .obj [("content", .arr [.obj [("text",
    .str "Agent created. [PAYMENT_FAILED] insufficient balance")]])]

/-- A response whose derived text carries the `[PAYMENT_FAILED]` marker but
which also carries a truthy `atxpError` field and no explicit success
signal. -/
def markerWithAtxpError : Json :=
  .obj [("message", .str "[PAYMENT_FAILED] balance sync pending"),
        ("atxpError", .str "ATXP endpoint routing issue: HTTP 404")]

/-- The spec's failure example: `{success: false, error: "unauthorized"}`. -/
def unauthorizedResponse : Json :=
  .obj [("success", .bool false), ("error", .str "unauthorized")]

/-- A successful response whose payment nonetheless failed with the
`[PAYMENT_FAILED]` marker. -/
def markerWithSuccess : Json :=
  .obj [("content", .arr [.obj [("text", .str "done [PAYMENT_FAILED] later")]])]

/-- A successful gateway response that exposes no `cost` field. -/
def successNoCost : Json :=
  .obj [("success", .bool true)]

/-!
# Theorems

One theorem per claim of the frozen claim list, preceded where the claim
fails by a concrete counterexample against the code as embedded above.
-/

/-- C1 counterexample: a request rejected by payment validation responds
402 and writes **zero** usage records, so "exactly one UsageRecord is
written per request, including payment-validation rejection" is false on
the code. -/
theorem c1_counterexample :
    ledgerWriteCount (toolHandler "create_agent" "user_demo_123" none (.obj [])
      false (.ok (.obj [])) 0) = 0 ∧
    toolHandler "create_agent" "user_demo_123" none (.obj []) false (.ok (.obj [])) 0 =
      [.respond 402] :=
  ⟨rfl, rfl⟩

/-- C1 (amended): on every request that passes payment validation the
handler performs exactly one ledger write followed by the HTTP response
(so the write completes before the response on both the gateway-success
and gateway-failure paths), while a payment-validation rejection responds
402 without writing any usage record. -/
theorem c1_one_ledger_write_when_validated (toolName userId : String)
    (agentId : Option Json) (body : Json) (paymentValid : Bool)
    (gw : Except String Json) (execMs : ℕ) :
    (paymentValid = true →
      ∃ rec httpStatus,
        toolHandler toolName userId agentId body paymentValid gw execMs =
          [.ledgerWrite rec, .respond httpStatus]) ∧
    (paymentValid = false →
      toolHandler toolName userId agentId body paymentValid gw execMs = [.respond 402]) := by
  constructor
  · rintro rfl
    cases gw with
    | ok resp => exact ⟨_, _, rfl⟩
    | error e => exact ⟨_, _, rfl⟩
  · rintro rfl
    rfl

/-- C1 witness: the amended theorem at a concrete failing gateway call. -/
theorem c1_witness :
    ∃ rec httpStatus,
      toolHandler "prompt_agent" "user_demo_123" none (.obj []) true
        (.error "MCP server not connected") 4 = [.ledgerWrite rec, .respond httpStatus] :=
  (c1_one_ledger_write_when_validated "prompt_agent" "user_demo_123" none (.obj []) true
    (.error "MCP server not connected") 4).1 rfl

/-- C3 counterexample: in the SDK-only revision of the tool handler a
transport failure **does** reach the classifier — `createAtxpFlow` is
invoked once, with a `null` response — so "never reaches the classifier"
is false on the code. -/
theorem c3_counterexample :
    classifyCount (toolHandlerSdk "prompt_agent" "user_demo_123" none (.obj [])
      (.error "HTTP 503 Service Unavailable") 7) = 1 ∧
    (toolHandlerSdk "prompt_agent" "user_demo_123" none (.obj [])
      (.error "HTTP 503 Service Unavailable") 7).head? = some (.classify none) :=
  ⟨rfl, rfl⟩

/-- C3 (amended): after a gateway transport failure both handler revisions
write a ledger row with `status = "error"`, `response = null` and
`errorMessage` the raw failure text, and answer HTTP 500; the
`routes.ts` handler never invokes the classifier, while the SDK-only
revision invokes it exactly once — with a `null` response, not with a
gateway response (and discards the resulting trace). -/
theorem c3_transport_failure_ledger (toolName userId : String) (agentId : Option Json)
    (body : Json) (e : String) (execMs : ℕ) :
    (∃ rec, toolHandler toolName userId agentId body true (.error e) execMs =
        [.ledgerWrite rec, .respond 500] ∧
      rec.status = "error" ∧ rec.response = none ∧ rec.errorMessage = some e) ∧
    (∃ rec, toolHandlerSdk toolName userId agentId body (.error e) execMs =
        [.classify none, .ledgerWrite rec, .respond 500] ∧
      rec.status = "error" ∧ rec.response = none ∧ rec.errorMessage = some e) ∧
    classifyCount (toolHandler toolName userId agentId body true (.error e) execMs) = 0 := by
  exact ⟨⟨_, rfl, rfl, rfl, rfl⟩, ⟨_, rfl, rfl, rfl, rfl⟩, rfl⟩

/-- C6 counterexample: a gateway **success** whose response exposes no
`cost` field leads to a ledger row with cost `0`, not the tool's expected
cost — so "otherwise falls back to the tool's expected cost (never to
zero)" is false on the code (which initializes `actualCost = 0` with the
comment "No fallback - must come from MCP response"). -/
theorem c6_counterexample :
    ledgerWriteCosts (toolHandler "prompt_agent" "user_demo_123" none (.obj []) true
      (.ok successNoCost) 3) = [0] ∧
    (toolHandler "prompt_agent" "user_demo_123" none (.obj []) true
      (.ok successNoCost) 3).getLast? = some (.respond 200) :=
  ⟨rfl, rfl⟩

/-- C6 (amended): on gateway success the single ledger row's cost is the
response's `cost` field when that field is present and numeric, and `0`
otherwise — never the tool's expected cost. -/
theorem c6_actual_cost_extraction (toolName userId : String) (agentId : Option Json)
    (body resp : Json) (execMs : ℕ) :
    (∀ q, jsGet (some resp) "cost" = some (.num q) →
      ledgerWriteCosts (toolHandler toolName userId agentId body true (.ok resp) execMs) = [q]) ∧
    ((∀ q, jsGet (some resp) "cost" ≠ some (.num q)) →
      ledgerWriteCosts (toolHandler toolName userId agentId body true (.ok resp) execMs) = [0]) := by
  have hshape :
      ledgerWriteCosts (toolHandler toolName userId agentId body true (.ok resp) execMs) =
        [extractNumericCost resp] := rfl
  constructor
  · intro q hq
    rw [hshape]
    cases resp with
    | obj fields =>
      simp only [extractNumericCost, hasResponseOf, jsTruthy, Json.truthy, Json.isObjectType,
        Bool.and_true, if_true, hq]
    | null => simp [jsGet] at hq
    | bool b => simp [jsGet] at hq
    | num x => simp [jsGet] at hq
    | str s => simp [jsGet] at hq
    | arr items => simp [jsGet] at hq
  · intro hq
    rw [hshape]
    unfold extractNumericCost
    split
    · cases h : jsGet (some resp) "cost" with
      | none => simp [h]
      | some v =>
        cases v with
        | num q => exact absurd h (hq q)
        | null => simp [h]
        | bool b => simp [h]
        | str s => simp [h]
        | arr items => simp [h]
        | obj fields => simp [h]
    · rfl

/-- C6 witness: the amended theorem at a response carrying a numeric cost. -/
theorem c6_witness :
    ledgerWriteCosts (toolHandler "get_agent" "user_demo_123" none (.obj []) true
      (.ok (.obj [("cost", .num 2)])) 9) = [2] :=
  (c6_actual_cost_extraction "get_agent" "user_demo_123" none (.obj [])
    (.obj [("cost", .num 2)]) 9).1 2 rfl

/-- C2 counterexample: a response whose derived text contains the
`[PAYMENT_FAILED]` marker but which also carries a truthy `atxpError`
field (and no explicit success signal) yields step 4 = `error` (not
`warning`) and step 5 = `error` (not `success`), so the universally
quantified claim is false on the code. -/
theorem c2_counterexample :
    strContains (deriveResponseText (some markerWithAtxpError)) "[PAYMENT_FAILED]" = true ∧
    ((createAtxpFlow "create_agent" 0 (some markerWithAtxpError)
      (fun _ => "t")).steps.getD 3 noStep).status = .error ∧
    ((createAtxpFlow "create_agent" 0 (some markerWithAtxpError)
      (fun _ => "t")).steps.getD 4 noStep).status = .error :=
  ⟨by decide, by decide, by decide⟩

/-- C2 (amended): for every response whose derived text contains the
(case-sensitive) `[PAYMENT_FAILED]` marker and which has no truthy
`atxpError` field, step 4 is `warning` with its cost zeroed, and step 5
mirrors `mcpSuccess` (`success` exactly when the classifier judged the
operation successful); in particular the spec's concrete example — where
`mcpSuccess` holds via the non-empty `content` array — yields
`steps[3].status = warning` and `steps[4].status = success`. -/
theorem c2_payment_failed_marker (op : String) (cost : ℚ) (r : Option Json)
    (clk : ℕ → String)
    (hmark : strContains (deriveResponseText r) "[PAYMENT_FAILED]" = true)
    (hatxp : jsTruthy (jsGet r "atxpError") = false) :
    ((createAtxpFlow op cost r clk).steps.getD 3 noStep).status = .warning ∧
    ((createAtxpFlow op cost r clk).steps.getD 3 noStep).cost = 0 ∧
    ((createAtxpFlow op cost r clk).steps.getD 4 noStep).status =
      (if mcpSuccessOf r then .success else .error) ∧
    ((createAtxpFlow "create_agent" 0 (some specMarkerExample)
      (fun _ => "t")).steps.getD 3 noStep).status = .warning ∧
    ((createAtxpFlow "create_agent" 0 (some specMarkerExample)
      (fun _ => "t")).steps.getD 4 noStep).status = .success := by
  have hne : deriveResponseText r ≠ "" := by
    intro h0
    rw [h0] at hmark
    exact absurd hmark (by decide)
  have hps : paymentStatusOf r = .warning := by
    simp [paymentStatusOf, hatxp, hasPaymentFailedMarker, hne, hmark]
  refine ⟨?_, ?_, ?_, by decide, by decide⟩
  · simp [createAtxpFlow, hps]
  · simp [createAtxpFlow, hps]
  · simp [createAtxpFlow]

/-- C2 witness: the amended theorem applied at the spec's concrete example
response. -/
theorem c2_witness :
    ((createAtxpFlow "create_agent" (1/20) (some specMarkerExample)
      (fun _ => "t")).steps.getD 3 noStep).status = .warning ∧
    ((createAtxpFlow "create_agent" (1/20) (some specMarkerExample)
      (fun _ => "t")).steps.getD 3 noStep).cost = 0 :=
  ⟨(c2_payment_failed_marker "create_agent" (1/20) (some specMarkerExample)
      (fun _ => "t") (by decide) (by decide)).1,
   (c2_payment_failed_marker "create_agent" (1/20) (some specMarkerExample)
      (fun _ => "t") (by decide) (by decide)).2.1⟩

/-- C4: for the gateway response `{success: false, error: "unauthorized"}`
the classifier computes `mcpSuccess = false`, and both step 3 (execution)
and step 5 (completion) of the trace carry status `error`, for every
operation name, expected cost and clock. -/
theorem c4_unauthorized_classification (op : String) (cost : ℚ) (clk : ℕ → String) :
    mcpSuccessOf (some unauthorizedResponse) = false ∧
    ((createAtxpFlow op cost (some unauthorizedResponse) clk).steps.getD 2 noStep).status =
      .error ∧
    ((createAtxpFlow op cost (some unauthorizedResponse) clk).steps.getD 4 noStep).status =
      .error := by
  refine ⟨by decide, ?_, ?_⟩ <;>
  · simp [createAtxpFlow]
    decide

/-- C8 counterexample: for a response where step 4 is `warning` (payment
marker present, operation successful) the completion step's details carry
**no** degraded-payment parenthetical, so "appends a parenthetical in
every case where step 4 was not a clean success" is false on the code
(the source appends it only when `paymentStatus === 'error'`). -/
theorem c8_counterexample :
    ((createAtxpFlow "list_agents" 0 (some markerWithSuccess)
      (fun _ => "t")).steps.getD 3 noStep).status = .warning ∧
    ((createAtxpFlow "list_agents" 0 (some markerWithSuccess)
      (fun _ => "t")).steps.getD 4 noStep).status = .success ∧
    ((createAtxpFlow "list_agents" 0 (some markerWithSuccess)
      (fun _ => "t")).steps.getD 4 noStep).details = "list_agents executed successfully" :=
  ⟨by decide, by decide, by decide⟩

/-- C8 (amended): for every classifier input, step 5 (completion) has cost
`0` and mirrors `mcpSuccess` as success/error, and its details text is the
success text with the " (payment failed)" parenthetical appended exactly
when `mcpSuccess` holds **and** step 4 is `error` — a `warning` step 4
gets no parenthetical, and neither does the failure text. -/
theorem c8_completion_step (op : String) (cost : ℚ) (r : Option Json) (clk : ℕ → String) :
    ((createAtxpFlow op cost r clk).steps.getD 4 noStep).cost = 0 ∧
    ((createAtxpFlow op cost r clk).steps.getD 4 noStep).status =
      (if mcpSuccessOf r then .success else .error) ∧
    ((createAtxpFlow op cost r clk).steps.getD 4 noStep).details =
      (if mcpSuccessOf r then
        op ++ " executed successfully" ++
          (if paymentStatusOf r = .error then " (payment failed)" else "")
       else op ++ " execution failed") := by
  refine ⟨?_, ?_, ?_⟩ <;> simp [createAtxpFlow]

/-- The report filter keeps a row iff the user matches and the timestamp
is within the (inclusive, optionally absent) bounds. -/
theorem usageKeep_true_iff (userId : String) (startDate endDate : Option Int)
    (u : McpToolUsage) :
    usageKeep userId startDate endDate u = true ↔
      (u.userId = userId ∧
        (match startDate with | some sd => sd ≤ u.createdAt | none => True) ∧
        (match endDate with | some ed => u.createdAt ≤ ed | none => True)) := by
  rcases startDate with _ | sd <;> rcases endDate with _ | ed <;>
    simp [usageKeep]

/-- Left fold of cost accumulation equals the initial value plus the sum of
the mapped costs. -/
theorem foldl_cost_sum (f : McpToolUsage → ℚ) (l : List McpToolUsage) :
    ∀ a : ℚ, l.foldl (fun sum record => sum + f record) a = a + (l.map f).sum := by
  induction l with
  | nil => intro a; simp
  | cons x xs ih => intro a; simp [ih, add_assoc]

/-- C5: `getUserUsageReport` returns exactly the stored rows whose
`userId` matches and whose `createdAt` lies within the inclusive
`[start, end]` bounds (an absent bound is unbounded), and the usage
endpoint's `totalCost` equals the sum over the reported rows of each row's
`cost` string parsed as a decimal number (`parseFloat` is the runtime
parser). -/
theorem c5_usage_report_filter_and_total (parseFloat : String → ℚ) (s : MemState)
    (userId : String) (startDate endDate : Option Int) :
    (∀ u, u ∈ getUserUsageReport s userId startDate endDate ↔
        (u ∈ s.toolUsage ∧ u.userId = userId ∧
          (match startDate with | some sd => sd ≤ u.createdAt | none => True) ∧
          (match endDate with | some ed => u.createdAt ≤ ed | none => True))) ∧
    (usageSummaryOf parseFloat (getUserUsageReport s userId startDate endDate)).totalCost =
      ((getUserUsageReport s userId startDate endDate).map
        (fun u => parseFloat u.cost)).sum := by
  constructor
  · intro u
    rw [getUserUsageReport, List.mem_filter, usageKeep_true_iff]
  · rw [usageSummaryOf]
    simp [foldl_cost_sum]

/-- C5 witness: the theorem at a one-row store, deciding the membership of
the row in the report. -/
theorem c5_witness :
    (let row : McpToolUsage :=
      { id := 1, userId := "user_demo_123", toolName := "list_agents", agentId := none,
        cost := "0.001", tokensUsed := none, executionTime := some 12, status := "success",
        errorMessage := none, request := .obj [], response := none, createdAt := 50 }
    let s : MemState :=
      { users := [], agents := [], agentAccess := [], toolUsage := [row],
        agentIdCounter := 1, usageIdCounter := 2 }
    row ∈ getUserUsageReport s "user_demo_123" (some 40) (some 60)) :=
  ((c5_usage_report_filter_and_total (fun _ => 0) _ "user_demo_123"
      (some 40) (some 60)).1 _).mpr ⟨by simp, rfl, by decide, by decide⟩

/-- C7: in API-key mode, a connected `callTool` surfaces every non-2xx
HTTP status as an error carrying the raw status code and body text,
re-throws a network/transport failure unchanged, fails on a malformed
(unparseable) body, and any successful result is exactly the parsed JSON
body of a 2xx response — never a substituted placeholder. -/
theorem c7_gateway_failure_propagation (envKey : String) (tc : McpToolCall)
    (atxpRes : Except String Json) (fetchRes : Except String HttpResp)
    (parseJson : String → Option Json) :
    (∀ resp, fetchRes = .ok resp → resp.isOk = false →
      callTool true (some envKey) "apikey" tc atxpRes fetchRes parseJson =
        .error ("MCP server responded with status " ++ toString resp.status ++ ": " ++
          resp.body)) ∧
    (∀ e, fetchRes = .error e →
      callTool true (some envKey) "apikey" tc atxpRes fetchRes parseJson = .error e) ∧
    (∀ resp, fetchRes = .ok resp → resp.isOk = true → parseJson resp.body = none →
      ∃ msg, callTool true (some envKey) "apikey" tc atxpRes fetchRes parseJson =
        .error msg) ∧
    (∀ j, callTool true (some envKey) "apikey" tc atxpRes fetchRes parseJson = .ok j →
      ∃ resp, fetchRes = .ok resp ∧ resp.isOk = true ∧ parseJson resp.body = some j) := by
  refine ⟨?_, ?_, ?_, ?_⟩
  · rintro resp rfl hok
    simp [callTool, hok]
  · rintro e rfl
    rfl
  · rintro resp rfl hok hp
    exact ⟨"Unexpected end of JSON input", by simp [callTool, hok, hp]⟩
  · intro j hj
    cases fetchRes with
    | error e => simp [callTool] at hj
    | ok resp =>
      by_cases hok : resp.isOk = true
      · cases hp : parseJson resp.body with
        | none => simp [callTool, hok, hp] at hj
        | some v =>
          refine ⟨resp, rfl, hok, ?_⟩
          simp [callTool, hok, hp] at hj
          rw [hp, hj]
      · rw [Bool.not_eq_true] at hok
        simp [callTool, hok] at hj

/-- C7 witness: the theorem's non-2xx case at a concrete 503 response. -/
theorem c7_witness :
    callTool true (some "key-123") "apikey" ⟨"list_agents", []⟩ (.ok .null)
      (.ok ⟨503, "Service Unavailable"⟩) (fun _ => none) =
      .error "MCP server responded with status 503: Service Unavailable" :=
  (c7_gateway_failure_propagation "key-123" ⟨"list_agents", []⟩ (.ok .null)
    (.ok ⟨503, "Service Unavailable"⟩) (fun _ => none)).1
    ⟨503, "Service Unavailable"⟩ rfl rfl

/-- No storage operation shrinks or edits the usage ledger: one step at
most appends to it. -/
theorem applyOp_usage_extends (op : StorageOp) (s : MemState) :
    ∃ t, s.toolUsage ++ t = (applyOp op s).toolUsage := by
  cases op with
  | getUser id => exact ⟨[], by simp [applyOp]⟩
  | getUserByUsername n => exact ⟨[], by simp [applyOp]⟩
  | createUser u uuid now => exact ⟨[], by simp [applyOp, createUser]⟩
  | createAgent a now => exact ⟨[], by simp [applyOp, createAgent]⟩
  | getAgent id userId => exact ⟨[], by simp [applyOp]⟩
  | getUserAgents userId => exact ⟨[], by simp [applyOp]⟩
  | updateAgent id userId updates now =>
    refine ⟨[], ?_⟩
    rcases h : mapGet s.agents id with _ | agent
    · simp [applyOp, updateAgent, h]
    · simp only [applyOp, updateAgent, h, List.append_nil]
      split
      · rfl
      · rfl
  | deleteAgent id userId =>
    refine ⟨[], ?_⟩
    rcases h : mapGet s.agents id with _ | agent
    · simp [applyOp, deleteAgent, h]
    · simp only [applyOp, deleteAgent, h, List.append_nil]
      split
      · rfl
      · rfl
  | addUserToAgent agentId userId ownerId now =>
    refine ⟨[], ?_⟩
    rcases h : mapGet s.agents agentId with _ | agent
    · simp [applyOp, addUserToAgent, h]
    · simp only [applyOp, addUserToAgent, h, List.append_nil]
      split
      · rfl
      · split
        · rfl
        · rfl
  | removeUserFromAgent agentId userId ownerId =>
    refine ⟨[], ?_⟩
    rcases h : mapGet s.agents agentId with _ | agent
    · simp [applyOp, removeUserFromAgent, h]
    · simp only [applyOp, removeUserFromAgent, h, List.append_nil]
      split
      · rfl
      · split
        · rfl
        · rfl
  | getUserAgentAccess userId => exact ⟨[], by simp [applyOp]⟩
  | recordToolUsage usage now => exact ⟨_, rfl⟩
  | getUserUsageReport userId sd ed => exact ⟨[], by simp [applyOp]⟩

/-- C9: usage records are immutable once written — the storage interface
offers no operation that updates or deletes a usage row, so after any
sequence of storage operations the previously stored ledger is an
unchanged initial segment of the resulting ledger. -/
theorem c9_usage_records_immutable (ops : List StorageOp) (s : MemState) :
    s.toolUsage <+: (applyOps ops s).toolUsage := by
  induction ops generalizing s with
  | nil => exact ⟨[], by simp [applyOps]⟩
  | cons op rest ih =>
    have h1 : s.toolUsage <+: (applyOp op s).toolUsage := applyOp_usage_extends op s
    have h2 := ih (applyOp op s)
    exact h1.trans (by simpa [applyOps] using h2)

/-- A key occurs in an association list iff its first-binding lookup is
defined. -/
theorem lookup_isSome_iff_any (l : List (String × Json)) (k : String) :
    l.any (fun q => q.1 == k) = (Json.lookup l k).isSome := by
  induction l with
  | nil => rfl
  | cons p rest ih =>
    by_cases h : p.1 = k <;> simp [Json.lookup, h, ih]

/-- C10: the environment credential is written before the caller's
argument map is spread, so a caller-supplied `apiKey` argument overrides
it — the built argument object resolves `apiKey` to the caller's value
when present and to the environment credential only otherwise — and the
outbound request body carries exactly this argument object. -/
theorem c10_caller_api_key_wins (envKey : String) (args : List (String × Json))
    (tc : McpToolCall) :
    Json.lookup (authenticatedArguments envKey args) "apiKey" =
      (match Json.lookup args "apiKey" with
       | some v => some v
       | none => some (.str envKey)) ∧
    jsGet (some (callToolRequestBody tc envKey)) "arguments" =
      some (.obj (authenticatedArguments envKey tc.arguments)) := by
  refine ⟨?_, rfl⟩
  unfold authenticatedArguments spreadFields
  cases h : Json.lookup args "apiKey" with
  | some v =>
    have hany : args.any (fun q => q.1 == "apiKey") = true := by
      rw [lookup_isSome_iff_any, h]
      rfl
    simp [List.filter, hany, h]
  | none =>
    have hany : args.any (fun q => q.1 == "apiKey") = false := by
      rw [lookup_isSome_iff_any, h]
      rfl
    simp [List.filter, hany, h, Json.lookup]

end MoluAbi
